import Mathlib

/-!
Verification of the pipeline lifecycle, hot-reload protocol and frame
orchestration of the wgpu_playground renderer, as a shallow embedding of
the Rust sources (src/pipelines/main_rp.rs, src/app.rs,
src/camera_controller.rs, src/camera.rs).

GPU handles (shader modules, buffers, bind groups) are modelled as plain
data; machine floats (f32) are modelled as rationals, and the
transcendental primitives the source calls on them (sqrt, sin, cos, the
constant pi) are abstracted into a `FloatOps` record so every theorem
holds for any interpretation of those primitives.
-/

namespace WgpuPlayground

/-! ## Shader compilation environment

The repository's `render_pipeline_base.rs` and
`shader_compilation_result.rs` are not part of the sources available
here; only their callers are.  Their operations are modelled from the
spec (sections 3, 4.1, 4.2).
-/

/-- The external world visible to shader compilation: for each resource
path, optionally the file's modification time together with its textual
contents, and the GPU driver's compiler from source text to a shader
module handle or a diagnostic message. -/
structure ShaderEnv where
  read : String → Option (Nat × String)
  driverCompile : String → Except String Nat

/-- Modelled from the spec (section 3): a compiled shader is the opaque
GPU program handle together with the source's last-modified timestamp;
immutable once produced. -/
structure CompiledShader where
  shader_module : Nat
  last_write_time : Nat
deriving DecidableEq, Repr

/-- Modelled from the spec (sections 3 and 4.4): the tagged union
returned by the per-pass hot-reload attempt, never partially applied. -/
inductive PipelineRecreationResult (α : Type) where
  | Success (value : α)
  | Failed (error : String)
  | AlreadyUpToDate
deriving DecidableEq, Repr

/-- Modelled from the spec (section 4.1, `PipelineBase::compile_shader_if_needed`,
whose source file `render_pipeline_base.rs` is missing): load the shader
text at the given path, submit it to the driver, record the source's
modification timestamp; a missing file or a driver diagnostic propagates
as a typed error. -/
def compile_shader_if_needed (env : ShaderEnv) (path : String) :
    Except String CompiledShader :=
  match env.read path with
  | none => .error "shader source not found"
  | some (mtime, text) =>
    match env.driverCompile text with
    | .error e => .error e
    | .ok m => .ok { shader_module := m, last_write_time := mtime }

/-- Modelled from the spec (section 4.2, `PipelineBase::need_recompile_shader`,
whose source file `render_pipeline_base.rs` is missing): read the current
modification timestamp and return true iff it is strictly newer than the
recorded one. -/
def need_recompile_shader (env : ShaderEnv) (path : String)
    (recorded : Nat) : Bool :=
  match env.read path with
  | none => false
  | some (mtime, _) => recorded < mtime

/-! ## Bind group layouts, pipelines and the MainRP pass
(from src/pipelines/main_rp.rs) -/

/-- The process-wide bind-group-layout descriptors referenced by
`bind_group_layout_descriptors` in the source. -/
inductive BindGroupLayoutKind where
  | LIGHT
  | CAMERA
  | GBUFFER
  | SHADOW_DEPTH_TEXTURE
  | COMPUTE_PING_PONG
deriving DecidableEq, Repr

/-- A pipeline layout: its label and the positional list of bind-group
layouts, as passed to `device.create_pipeline_layout`. -/
structure PipelineLayout where
  label : String
  bind_group_layouts : List BindGroupLayoutKind
deriving DecidableEq, Repr

/-- A compute pipeline, determined by the descriptor handed to
`device.create_compute_pipeline` in `MainRP::create_render_pipeline`. -/
structure ComputePipeline where
  label : String
  layout : PipelineLayout
  entry_point : String
  module : Nat
deriving DecidableEq, Repr

/-- A runtime bind group; it carries the layout kind it was allocated
against and an opaque resource handle. -/
structure BindGroup where
  layout : BindGroupLayoutKind
  handle : Nat
deriving DecidableEq, Repr

/-- Texture formats, opaque to this subsystem. -/
abbrev TextureFormat := Nat

/-- The lighting-resolve compute pass (struct `MainRP`,
src/pipelines/main_rp.rs lines 15-19). -/
structure MainRP where
  compute_pipeline : ComputePipeline
  shader_modification_time : Nat
  color_format : TextureFormat
deriving DecidableEq, Repr

namespace MainRP

/-- `SHADER_SOURCE` constant (main_rp.rs line 13). -/
def SHADER_SOURCE : String := "src/shaders/main.wgsl"

/-- `MainRP::create_render_pipeline` (main_rp.rs lines 24-36).  The
`color_format` argument is accepted and unused, exactly as in the
source, where the compute pipeline descriptor has no colour target. -/
def create_render_pipeline (shader_module : Nat)
    (color_format : TextureFormat)
    (render_pipeline_layout : PipelineLayout) : ComputePipeline :=
  { label := "Compute pipeline that does the lighting from the gbuffer"
    layout := render_pipeline_layout
    entry_point := "cs_main"
    module := shader_module }

/-- `MainRP::create_pipeline_layout` (main_rp.rs lines 38-51): the five
bind-group layouts, in declaration order. -/
def create_pipeline_layout : PipelineLayout :=
  { label := "Main Render Pipeline Layout"
    bind_group_layouts :=
      [ .LIGHT, .CAMERA, .GBUFFER, .SHADOW_DEPTH_TEXTURE,
        .COMPUTE_PING_PONG ] }

/-- `MainRP::new_internal` (main_rp.rs lines 58-73). -/
def new_internal (shader : CompiledShader)
    (color_format : TextureFormat) : MainRP :=
  let render_pipeline_layout := create_pipeline_layout
  { compute_pipeline :=
      create_render_pipeline shader.shader_module color_format
        render_pipeline_layout
    shader_modification_time := shader.last_write_time
    color_format := color_format }

/-- `MainRP::new` (main_rp.rs lines 53-56). -/
def new (env : ShaderEnv) (color_format : TextureFormat) :
    Except String MainRP :=
  match compile_shader_if_needed env SHADER_SOURCE with
  | .error e => .error e
  | .ok shader => .ok (new_internal shader color_format)

/-- `MainRP::try_recompile_shader` (main_rp.rs lines 75-88). -/
def try_recompile_shader (self : MainRP) (env : ShaderEnv) :
    PipelineRecreationResult MainRP :=
  if ¬ need_recompile_shader env SHADER_SOURCE
      self.shader_modification_time then
    .AlreadyUpToDate
  else
    match compile_shader_if_needed env SHADER_SOURCE with
    | .ok compiled_shader =>
      .Success (new_internal compiled_shader self.color_format)
    | .error e => .Failed e

/-- The pass the caller holds once the hot-reload attempt returns: the
new pass on `Success`, the old one otherwise (spec section 4.4, steps 3
and 4). -/
def after_recompile (self : MainRP) (env : ShaderEnv) : MainRP :=
  match self.try_recompile_shader env with
  | .Success p => p
  | _ => self

end MainRP

/-! ## The camera (from src/camera.rs)

`f32` values are modelled as rationals.  The floating-point primitives
the source applies to them — square root (inside `normalize`), sine and
cosine (inside the quaternion constructors) and the constant `PI` — are
abstracted into a `FloatOps` record: every theorem below holds for every
interpretation of these primitives, so nothing depends on a particular
rounding model. -/

/-- Abstract interpretations of the f32 primitives used by the camera
math. -/
structure FloatOps where
  fsqrt : ℚ → ℚ
  fsin : ℚ → ℚ
  fcos : ℚ → ℚ
  fpi : ℚ

/-- A 3-vector of rationals, modelling `cgmath::Vector3<f32>`. -/
structure V3 where
  x : ℚ
  y : ℚ
  z : ℚ
deriving DecidableEq, Repr

namespace V3

def zero : V3 := ⟨0, 0, 0⟩

def add (a b : V3) : V3 := ⟨a.x + b.x, a.y + b.y, a.z + b.z⟩

def sub (a b : V3) : V3 := ⟨a.x - b.x, a.y - b.y, a.z - b.z⟩

def smul (c : ℚ) (v : V3) : V3 := ⟨c * v.x, c * v.y, c * v.z⟩

def dot (a b : V3) : ℚ := a.x * b.x + a.y * b.y + a.z * b.z

def cross (a b : V3) : V3 :=
  ⟨a.y * b.z - a.z * b.y, a.z * b.x - a.x * b.z, a.x * b.y - a.y * b.x⟩

/-- `cgmath`'s `mul_element_wise`. -/
def mul_element_wise (a b : V3) : V3 := ⟨a.x * b.x, a.y * b.y, a.z * b.z⟩

/-- `cgmath`'s `InnerSpace::normalize`: divide by the (floating-point)
norm.  Only meaningful on non-zero vectors, as in the source. -/
def normalize (F : FloatOps) (v : V3) : V3 :=
  smul (1 / F.fsqrt (dot v v)) v

instance : Add V3 := ⟨add⟩

instance : Sub V3 := ⟨sub⟩

theorem sub_def (a b : V3) :
    a - b = ⟨a.x - b.x, a.y - b.y, a.z - b.z⟩ := rfl

end V3

/-- Quaternions over the rational model of f32
(`cgmath::Quaternion<f32>`). -/
structure Quat where
  s : ℚ
  x : ℚ
  y : ℚ
  z : ℚ
deriving DecidableEq, Repr

namespace Quat

/-- `Quaternion::from_angle_y`. -/
def from_angle_y (F : FloatOps) (theta : ℚ) : Quat :=
  ⟨F.fcos (theta / 2), 0, F.fsin (theta / 2), 0⟩

/-- `Quaternion::from_angle_z`. -/
def from_angle_z (F : FloatOps) (theta : ℚ) : Quat :=
  ⟨F.fcos (theta / 2), 0, 0, F.fsin (theta / 2)⟩

def mul (a b : Quat) : Quat :=
  ⟨a.s * b.s - a.x * b.x - a.y * b.y - a.z * b.z,
   a.s * b.x + a.x * b.s + a.y * b.z - a.z * b.y,
   a.s * b.y - a.x * b.z + a.y * b.s + a.z * b.x,
   a.s * b.z + a.x * b.y - a.y * b.x + a.z * b.s⟩

def conj (q : Quat) : Quat := ⟨q.s, -q.x, -q.y, -q.z⟩

/-- `Rotation::rotate_vector`: v ↦ q * (0, v) * q⁻¹, taking the vector
part. -/
def rotate_vector (q : Quat) (v : V3) : V3 :=
  let r := mul (mul q ⟨0, v.x, v.y, v.z⟩) (conj q)
  ⟨r.x, r.y, r.z⟩

end Quat

/-- `REFERENCE_DIRECTION` (camera.rs line 17). -/
def REFERENCE_DIRECTION : V3 := ⟨1, 0, 0⟩

/-- `CAMERA_UP_VECTOR` (camera.rs line 19). -/
def CAMERA_UP_VECTOR : V3 := ⟨0, 1, 0⟩

/-- `MOVEMENT_SENSITIVITY` (camera.rs line 21). -/
def MOVEMENT_SENSITIVITY : ℚ := 20

/-- `MOUSE_LOOK_SENSITIVITY` (camera.rs line 22). -/
def MOUSE_LOOK_SENSITIVITY : ℚ := 5 / 1000

/-- `winit::event::ElementState`. -/
inductive ElementState where
  | Pressed
  | Released
deriving DecidableEq, Repr

/-- The virtual key codes the camera reacts to; every other key is
`OtherKey`. -/
inductive VirtualKeyCode where
  | W
  | S
  | A
  | D
  | Q
  | E
  | OtherKey
deriving DecidableEq, Repr

/-- `winit::event::KeyboardInput`, restricted to the fields the camera
reads. -/
structure KeyboardInput where
  state : ElementState
  virtual_keycode : Option VirtualKeyCode
deriving DecidableEq, Repr

/-- `winit::event::DeviceEvent`, restricted to the variants the camera
handles; all others are `OtherEvent`. -/
inductive DeviceEvent where
  | MouseMotion (delta : ℚ × ℚ)
  | Key (input : KeyboardInput)
  | OtherEvent
deriving DecidableEq, Repr

/-- `struct Camera` (camera.rs lines 31-44).  `orientation` is the Euler
angle triple (x, y, z) in radians; `look_sensitivity` is the (x, y)
pair. -/
structure Camera where
  eye : V3
  up : V3
  aspect : ℚ
  fovy : ℚ
  znear : ℚ
  zfar : ℚ
  look_sensitivity : ℚ × ℚ
  orientation : V3
  current_speed_positive : V3
  current_speed_negative : V3
  movement_sensitivity : V3
  is_rotation_enabled : Bool
deriving DecidableEq, Repr

namespace Camera

/-- `Camera::get_forward` (camera.rs lines 91-95). -/
def get_forward (F : FloatOps) (self : Camera) : V3 :=
  let pitch_rotation := Quat.from_angle_y F self.orientation.x
  let yaw_rotation := Quat.from_angle_z F self.orientation.z
  (pitch_rotation.mul yaw_rotation).rotate_vector REFERENCE_DIRECTION

/-- `Camera::get_right` (camera.rs lines 97-99). -/
def get_right (F : FloatOps) (self : Camera) : V3 :=
  V3.normalize F ((get_forward F self).cross CAMERA_UP_VECTOR)

/-- `Camera::get_target` (camera.rs lines 101-103). -/
def get_target (F : FloatOps) (self : Camera) : V3 :=
  self.eye + get_forward F self

/-- `Camera::resize` (camera.rs lines 105-107). -/
def resize (self : Camera) (aspect : ℚ) : Camera :=
  { self with aspect := aspect }

/-- `Camera::set_is_camera_rotation_enabled` (camera.rs lines
109-111). -/
def set_is_camera_rotation_enabled (self : Camera) (is_enabled : Bool) :
    Camera :=
  { self with is_rotation_enabled := is_enabled }

/-- `Camera::handle_keyboard_event` (camera.rs lines 113-142). -/
def handle_keyboard_event (self : Camera) (keyboard_event : KeyboardInput) :
    Camera :=
  match keyboard_event.state with
  | .Pressed =>
    match keyboard_event.virtual_keycode with
    | some keycode =>
      match keycode with
      | .W => { self with current_speed_positive :=
                  { self.current_speed_positive with z := 1 } }
      | .S => { self with current_speed_negative :=
                  { self.current_speed_negative with z := 1 } }
      | .A => { self with current_speed_negative :=
                  { self.current_speed_negative with x := 1 } }
      | .D => { self with current_speed_positive :=
                  { self.current_speed_positive with x := 1 } }
      | .Q => { self with current_speed_positive :=
                  { self.current_speed_positive with y := 1 } }
      | .E => { self with current_speed_negative :=
                  { self.current_speed_negative with y := 1 } }
      | .OtherKey => self
    | none => self
  | .Released =>
    match keyboard_event.virtual_keycode with
    | some keycode =>
      match keycode with
      | .W => { self with current_speed_positive :=
                  { self.current_speed_positive with z := 0 } }
      | .S => { self with current_speed_negative :=
                  { self.current_speed_negative with z := 0 } }
      | .A => { self with current_speed_negative :=
                  { self.current_speed_negative with x := 0 } }
      | .D => { self with current_speed_positive :=
                  { self.current_speed_positive with x := 0 } }
      | .Q => { self with current_speed_positive :=
                  { self.current_speed_positive with y := 0 } }
      | .E => { self with current_speed_negative :=
                  { self.current_speed_negative with y := 0 } }
      | .OtherKey => self
    | none => self

/-- `Camera::rotate` (camera.rs lines 175-183). -/
def rotate (F : FloatOps) (self : Camera) (delta : ℚ × ℚ) : Camera :=
  let o1 := { self.orientation with
                x := self.orientation.x +
                  self.look_sensitivity.1 * (-delta.1) }
  let o2 := { o1 with z := o1.z + self.look_sensitivity.2 * (-delta.2) }
  let o3 := { o2 with z := max (-(F.fpi) / 2 + 1 / 10000)
                         (min o2.z (F.fpi / 2 - 1 / 10000)) }
  { self with orientation := o3 }

/-- `Camera::process_device_events` (camera.rs lines 144-156). -/
def process_device_events (F : FloatOps) (self : Camera)
    (event : DeviceEvent) : Camera :=
  match event with
  | .MouseMotion delta =>
    if self.is_rotation_enabled then rotate F self delta else self
  | .Key keyboard_input => handle_keyboard_event self keyboard_input
  | .OtherEvent => self

/-- `Camera::update` (camera.rs lines 158-173).  `delta` is the frame
duration in seconds (`delta.as_secs_f32()`). -/
def update (F : FloatOps) (self : Camera) (delta : ℚ) : Camera :=
  let current_speed :=
    self.current_speed_positive - self.current_speed_negative
  if current_speed = V3.zero then
    self
  else
    let speed_norm := V3.normalize F current_speed
    let right := V3.smul speed_norm.x (get_right F self)
    let up := V3.smul speed_norm.y CAMERA_UP_VECTOR
    let forward := V3.smul speed_norm.z (get_forward F self)
    let v := V3.smul delta
      (((right + up) + forward).mul_element_wise self.movement_sensitivity)
    { self with eye := self.eye + v }

/-- `Camera::stop_movement`, called by
`CameraController::set_is_movement_enabled`; its body is not among the
available sources.  Modelled from the spec: the controllers' "internal
update logic (movement integration…)" is out of scope, so it is embedded
as zeroing both speed accumulators, which is all a stop can mean for
this state. -/
def stop_movement (self : Camera) : Camera :=
  { self with current_speed_positive := V3.zero
              current_speed_negative := V3.zero }

end Camera

/-! ## Frame-level effects

GPU queue and command-encoder side effects are modelled as event
traces: a stateful call returns its new state paired with the list of
events it emits, in order.  Buffer contents are abstracted — the claims
concern ordering, not payloads. -/

/-- The per-frame events relevant to the orchestration claims. -/
inductive FrameEvent where
  | writeCameraBuffer
  | writeLightBuffer
  | recordGeometryPass
  | recordShadowPass
  | recordLightingComputePass
  | recordSkyboxPass
  | recordPostProcessPass
  | submit
deriving DecidableEq, Repr

/-- Whether an event is a camera/light uniform-buffer write. -/
def FrameEvent.is_uniform_write : FrameEvent → Bool
  | .writeCameraBuffer => true
  | .writeLightBuffer => true
  | _ => false

/-! ## The camera controller (from src/camera_controller.rs) -/

/-- `struct CameraController` (camera_controller.rs lines 9-14).  The
uniform buffer is an opaque GPU handle. -/
structure CameraController where
  camera : Camera
  binding_buffer : Nat
  bind_group : BindGroup
  is_movement_enabled : Bool
deriving DecidableEq, Repr

namespace CameraController

/-- `CameraController::resize` (camera_controller.rs lines 47-49). -/
def resize (self : CameraController) (aspect : ℚ) : CameraController :=
  { self with camera := self.camera.resize aspect }

/-- `CameraController::update` (camera_controller.rs lines 51-59):
advance the camera, then queue a write of the camera uniform buffer. -/
def update (F : FloatOps) (self : CameraController) (delta_time : ℚ) :
    CameraController × List FrameEvent :=
  ({ self with camera := self.camera.update F delta_time },
   [.writeCameraBuffer])

/-- `CameraController::set_is_movement_enabled` (camera_controller.rs
lines 61-67). -/
def set_is_movement_enabled (self : CameraController) (value : Bool) :
    CameraController :=
  let self' := { self with is_movement_enabled := value }
  if ¬ self'.is_movement_enabled then
    { self' with camera := self'.camera.stop_movement }
  else
    self'

/-- `CameraController::process_device_events` (camera_controller.rs
lines 69-73). -/
def process_device_events (F : FloatOps) (self : CameraController)
    (event : DeviceEvent) : CameraController :=
  if self.is_movement_enabled then
    { self with camera := self.camera.process_device_events F event }
  else
    self

end CameraController

/-! ## The light controller, renderer and application
(src/app.rs; `light_controller.rs` and `renderer.rs` are not among the
available sources and are modelled from the spec) -/

/-- Modelled from the spec (sections 2 and 6, `LightController`, whose
source file `light_controller.rs` is missing): a producer of an opaque
light uniform buffer and its bind group. -/
structure LightController where
  light_buffer : Nat
  light_bind_group : BindGroup
deriving DecidableEq, Repr

/-- Modelled from the spec (section 2, `LightController::update`):
refresh the light uniform buffer by queueing a write. -/
def LightController.update (self : LightController) (delta : ℚ) :
    LightController × List FrameEvent :=
  (self, [.writeLightBuffer])

/-- `winit::dpi::PhysicalSize<u32>`. -/
structure PhysicalSize where
  width : Nat
  height : Nat
deriving DecidableEq, Repr

/-- A GPU texture, determined by its label and dimensions. -/
structure Texture where
  label : String
  width : Nat
  height : Nat
deriving DecidableEq, Repr

/-- A bind group over an intermediate texture. -/
structure TextureBindGroup where
  label : String
  texture : Texture
deriving DecidableEq, Repr

/-- Modelled from the spec (section 4.6): the renderer's size-dependent
intermediate resources — g-buffer attachments, the shadow depth texture,
the ping-pong compute textures, and their dependent bind groups. -/
structure IntermediateResources where
  gbuffer_textures : List Texture
  shadow_depth_texture : Texture
  ping_pong_textures : List Texture
  texture_bind_groups : List TextureBindGroup
deriving DecidableEq, Repr

/-- Modelled from the spec (section 4.6): on resize "every intermediate
texture … and their dependent bind groups must be rebuilt"; each is a
deterministic function of the output dimensions. -/
def make_intermediate_resources (size : PhysicalSize) :
    IntermediateResources :=
  let gbuffer := [⟨"gbuffer position", size.width, size.height⟩,
                  ⟨"gbuffer normal", size.width, size.height⟩,
                  ⟨"gbuffer albedo", size.width, size.height⟩]
  let shadow : Texture := ⟨"shadow depth", size.width, size.height⟩
  let ping_pong := [⟨"compute ping", size.width, size.height⟩,
                    ⟨"compute pong", size.width, size.height⟩]
  { gbuffer_textures := gbuffer
    shadow_depth_texture := shadow
    ping_pong_textures := ping_pong
    texture_bind_groups :=
      (gbuffer ++ [shadow] ++ ping_pong).map
        (fun t => ⟨t.label, t⟩) }

/-- Modelled from the spec (sections 2 and 4.6, `Renderer`, whose source
file `renderer.rs` is missing): the owner of the output size and of the
size-dependent intermediate resources. -/
structure Renderer where
  size : PhysicalSize
  resources : IntermediateResources
deriving DecidableEq, Repr

/-- Modelled from the spec (section 4.6, `Renderer::resize`): record the
new size and rebuild every intermediate texture and dependent bind
group. -/
def Renderer.resize (self : Renderer) (new_size : PhysicalSize) :
    Renderer :=
  { size := new_size, resources := make_intermediate_resources new_size }

/-- Modelled from the spec (sections 2 and 4.6, `Renderer::render`,
whose source file `renderer.rs` is missing): record the passes in
dependency order — geometry, shadow, lighting compute, skybox,
post-process — then submit the single command buffer. -/
def Renderer.render_trace : List FrameEvent :=
  [ .recordGeometryPass, .recordShadowPass, .recordLightingComputePass,
    .recordSkyboxPass, .recordPostProcessPass, .submit ]

/-- `struct App` (app.rs lines 16-23), restricted to the state the
claims concern; the frame timer, gui params and world are opaque to
them. -/
structure App where
  renderer : Renderer
  camera_controller : CameraController
  light_controller : LightController
deriving DecidableEq, Repr

namespace App

/-- `App::resize` (app.rs lines 46-52). -/
def resize (self : App) (new_size : PhysicalSize) : App :=
  if 0 < new_size.width ∧ 0 < new_size.height ∧
      new_size ≠ self.renderer.size then
    { self with
        renderer := self.renderer.resize new_size
        camera_controller := self.camera_controller.resize
          ((new_size.width : ℚ) / (new_size.height : ℚ)) }
  else
    self

/-- `App::update` (app.rs lines 122-126): camera controller update, then
light controller update. -/
def update (F : FloatOps) (self : App) (delta : ℚ) :
    App × List FrameEvent :=
  let (cc, camera_events) := self.camera_controller.update F delta
  let (lc, light_events) := self.light_controller.update delta
  ({ self with camera_controller := cc, light_controller := lc },
   camera_events ++ light_events)

/-- `App::request_redraw` (app.rs lines 107-120): take the frame delta,
run `update`, then the renderer's pass-recording-and-submit
sequence. -/
def request_redraw (F : FloatOps) (self : App) (delta : ℚ) :
    App × List FrameEvent :=
  let (self', update_events) := update F self delta
  (self', update_events ++ Renderer.render_trace)

/-- The states `App::new` establishes and `App` maintains: a positive
output size, intermediate resources built for the current size, and the
camera aspect ratio equal to the current width over height. -/
def well_formed (self : App) : Prop :=
  0 < self.renderer.size.width ∧ 0 < self.renderer.size.height ∧
  self.renderer.resources =
    make_intermediate_resources self.renderer.size ∧
  self.camera_controller.camera.aspect =
    (self.renderer.size.width : ℚ) / (self.renderer.size.height : ℚ)

instance (a : App) : Decidable a.well_formed := by
  unfold well_formed
  infer_instance

end App

/-! ## MainRP command recording (main_rp.rs lines 90-110) -/

/-- The compute-pass commands `MainRP::render` records. -/
inductive ComputeCommand where
  | SetPipeline (pipeline : ComputePipeline)
  | SetBindGroup (index : Nat) (bind_group : BindGroup)
  | DispatchWorkgroups (x y z : Nat)
deriving DecidableEq, Repr

/-- `MainRP::render` (main_rp.rs lines 90-110), as the ordered list of
commands recorded on the compute pass; bind-group slot indices and the
argument order are exactly those of the source. -/
def MainRP.render (self : MainRP) (camera_controller : CameraController)
    (light_controller : LightController)
    (gbuffer_bind_group shadow_bind_group
      copmute_pass_textures_bind_group : BindGroup)
    (width height : Nat) : List ComputeCommand :=
  [ .SetPipeline self.compute_pipeline,
    .SetBindGroup 1 camera_controller.bind_group,
    .SetBindGroup 0 light_controller.light_bind_group,
    .SetBindGroup 2 gbuffer_bind_group,
    .SetBindGroup 3 shadow_bind_group,
    .SetBindGroup 4 copmute_pass_textures_bind_group,
    .DispatchWorkgroups width height 1 ]

/-- A recorded command respects a pipeline layout when any bind group it
sets at slot `i` was allocated against the layout's `i`-th bind-group
layout. -/
def ComputeCommand.matches_layout (layout : PipelineLayout) :
    ComputeCommand → Prop
  | .SetBindGroup index bind_group =>
    layout.bind_group_layouts.get? index = some bind_group.layout
  | _ => True

/-! ## Shared concrete instances used by the witnesses -/

/-- An environment in which the main shader source exists (mtime 5) but
fails driver compilation. -/
def env_fail : ShaderEnv :=
  { read := fun p =>
      if p = "src/shaders/main.wgsl" then some (5, "bad shader") else none
    driverCompile := fun _ => .error "syntax error" }

/-- An environment in which the main shader source exists (mtime 7) and
compiles to module handle 42. -/
def env_ok : ShaderEnv :=
  { read := fun p =>
      if p = "src/shaders/main.wgsl" then some (7, "fine shader") else none
    driverCompile := fun _ => .ok 42 }

/-- A concrete pass built from shader module 20 at mtime 3 with colour
format 0. -/
def mainRP_example : MainRP :=
  { compute_pipeline :=
      MainRP.create_render_pipeline 20 0 MainRP.create_pipeline_layout
    shader_modification_time := 3
    color_format := 0 }

/-! ## Claims C1-C5: the MainRP hot-reload protocol and bind slots -/

/-- C1: if the recompilation attempt fails (a change was detected but
compilation errors), `try_recompile_shader` returns `Failed` carrying
the compile error, and the pass the caller holds afterwards is the very
pass from before the call — its pipeline, recorded
shader_modification_time and color_format included; no replacement
happens on failure. -/
theorem claim1_recompile_failure_keeps_old_pipeline
    (self : MainRP) (env : ShaderEnv) (e : String)
    (hneed : need_recompile_shader env MainRP.SHADER_SOURCE
      self.shader_modification_time = true)
    (hfail : compile_shader_if_needed env MainRP.SHADER_SOURCE =
      .error e) :
    self.try_recompile_shader env = .Failed e ∧
    self.after_recompile env = self := by
  unfold MainRP.after_recompile MainRP.try_recompile_shader
  simp [hneed, hfail]

/-- Witness for C1 at a concrete pass and failing environment. -/
theorem claim1_witness :
    mainRP_example.try_recompile_shader env_fail = .Failed "syntax error" ∧
    mainRP_example.after_recompile env_fail = mainRP_example :=
  claim1_recompile_failure_keeps_old_pipeline mainRP_example env_fail
    "syntax error" (by decide) rfl

/-- C2: `try_recompile_shader` returns `AlreadyUpToDate` — leaving the
caller's pipeline untouched — exactly when `need_recompile_shader`
reports no change (the current modification time is not strictly newer
than the recorded one); when a change is reported it attempts
recompilation exactly once and the outcome is determined by that single
compilation. -/
theorem claim2_already_up_to_date_iff_no_change
    (self : MainRP) (env : ShaderEnv) :
    (self.try_recompile_shader env = .AlreadyUpToDate ↔
      need_recompile_shader env MainRP.SHADER_SOURCE
        self.shader_modification_time = false) ∧
    (self.try_recompile_shader env = .AlreadyUpToDate →
      self.after_recompile env = self) ∧
    (need_recompile_shader env MainRP.SHADER_SOURCE
        self.shader_modification_time = true →
      self.try_recompile_shader env =
        match compile_shader_if_needed env MainRP.SHADER_SOURCE with
        | .ok compiled_shader =>
          .Success (MainRP.new_internal compiled_shader self.color_format)
        | .error e => .Failed e) := by
  unfold MainRP.after_recompile MainRP.try_recompile_shader
  cases hneed : need_recompile_shader env MainRP.SHADER_SOURCE
      self.shader_modification_time with
  | false => simp
  | true =>
    cases hcomp : compile_shader_if_needed env MainRP.SHADER_SOURCE with
    | ok s => simp [hcomp]
    | error e => simp [hcomp]

/-- Witness for C2 at a concrete pass and environment. -/
theorem claim2_witness :
    (mainRP_example.try_recompile_shader env_ok = .AlreadyUpToDate ↔
      need_recompile_shader env_ok MainRP.SHADER_SOURCE
        mainRP_example.shader_modification_time = false) ∧
    (mainRP_example.try_recompile_shader env_ok = .AlreadyUpToDate →
      mainRP_example.after_recompile env_ok = mainRP_example) ∧
    (need_recompile_shader env_ok MainRP.SHADER_SOURCE
        mainRP_example.shader_modification_time = true →
      mainRP_example.try_recompile_shader env_ok =
        match compile_shader_if_needed env_ok MainRP.SHADER_SOURCE with
        | .ok compiled_shader =>
          .Success (MainRP.new_internal compiled_shader
            mainRP_example.color_format)
        | .error e => .Failed e) :=
  claim2_already_up_to_date_iff_no_change mainRP_example env_ok

/-- C3: when a change was detected and compilation succeeds,
`try_recompile_shader` returns `Success` with a pass fully rebuilt by
`new_internal`; its recorded shader_modification_time equals the newly
compiled shader's last_write_time exactly, and it is constructed with
the same color_format the original construction captured. -/
theorem claim3_recompile_success_rebuilds_pass
    (self : MainRP) (env : ShaderEnv) (compiled_shader : CompiledShader)
    (hneed : need_recompile_shader env MainRP.SHADER_SOURCE
      self.shader_modification_time = true)
    (hok : compile_shader_if_needed env MainRP.SHADER_SOURCE =
      .ok compiled_shader) :
    self.try_recompile_shader env =
      .Success (MainRP.new_internal compiled_shader self.color_format) ∧
    (MainRP.new_internal compiled_shader
        self.color_format).shader_modification_time =
      compiled_shader.last_write_time ∧
    (MainRP.new_internal compiled_shader self.color_format).color_format =
      self.color_format := by
  unfold MainRP.try_recompile_shader MainRP.new_internal
  simp [hneed, hok]

/-- Witness for C3 at a concrete pass and succeeding environment. -/
theorem claim3_witness :
    mainRP_example.try_recompile_shader env_ok =
      .Success (MainRP.new_internal ⟨42, 7⟩
        mainRP_example.color_format) ∧
    (MainRP.new_internal ⟨42, 7⟩
        mainRP_example.color_format).shader_modification_time =
      (7 : Nat) ∧
    (MainRP.new_internal ⟨42, 7⟩
        mainRP_example.color_format).color_format =
      mainRP_example.color_format :=
  claim3_recompile_success_rebuilds_pass mainRP_example env_ok ⟨42, 7⟩
    (by decide) rfl

/-- C4: `MainRP::new` propagates the compilation error and produces no
pass whenever shader compilation fails, and when compilation succeeds it
yields the fully constructed pass — pipeline built against the declared
layout, timestamp recorded, colour format stored — with no partially
constructed state. -/
theorem claim4_new_is_all_or_nothing
    (env : ShaderEnv) (color_format : TextureFormat) :
    (∀ e, compile_shader_if_needed env MainRP.SHADER_SOURCE = .error e →
      MainRP.new env color_format = .error e) ∧
    (∀ shader,
      compile_shader_if_needed env MainRP.SHADER_SOURCE = .ok shader →
      MainRP.new env color_format =
        .ok { compute_pipeline :=
                MainRP.create_render_pipeline shader.shader_module
                  color_format MainRP.create_pipeline_layout
              shader_modification_time := shader.last_write_time
              color_format := color_format }) := by
  constructor
  · intro e he
    unfold MainRP.new
    simp [he]
  · intro shader hs
    unfold MainRP.new MainRP.new_internal
    simp [hs]

/-- Witness for C4 at the concrete failing and succeeding
environments. -/
theorem claim4_witness :
    MainRP.new env_fail 0 = .error "syntax error" ∧
    MainRP.new env_ok 0 =
      .ok { compute_pipeline :=
              MainRP.create_render_pipeline 42 0
                MainRP.create_pipeline_layout
            shader_modification_time := 7
            color_format := 0 } :=
  ⟨(claim4_new_is_all_or_nothing env_fail 0).1 "syntax error" rfl,
   (claim4_new_is_all_or_nothing env_ok 0).2 ⟨42, 7⟩ rfl⟩

/-- C5: every bind group set by `MainRP::render` — light at slot 0,
camera at slot 1, g-buffer at slot 2, shadow depth at slot 3, compute
ping-pong at slot 4 — lands at exactly the position its bind-group
layout occupies in the pipeline layout built by
`MainRP::create_pipeline_layout`. -/
theorem claim5_render_slots_match_pipeline_layout
    (self : MainRP) (camera_controller : CameraController)
    (light_controller : LightController)
    (gbuffer_bind_group shadow_bind_group
      copmute_pass_textures_bind_group : BindGroup)
    (width height : Nat)
    (hcam : camera_controller.bind_group.layout = .CAMERA)
    (hlight : light_controller.light_bind_group.layout = .LIGHT)
    (hgbuf : gbuffer_bind_group.layout = .GBUFFER)
    (hshadow : shadow_bind_group.layout = .SHADOW_DEPTH_TEXTURE)
    (hping : copmute_pass_textures_bind_group.layout =
      .COMPUTE_PING_PONG) :
    List.Forall
      (fun c => c.matches_layout MainRP.create_pipeline_layout)
      (self.render camera_controller light_controller
        gbuffer_bind_group shadow_bind_group
        copmute_pass_textures_bind_group width height) := by
  simp only [MainRP.render, List.forall_cons, List.Forall]
  refine ⟨trivial, ?_, ?_, ?_, ?_, ?_, trivial⟩ <;>
    simp [ComputeCommand.matches_layout, MainRP.create_pipeline_layout,
      hcam, hlight, hgbuf, hshadow, hping]

/-- A concrete camera used by the witnesses. -/
def camera_example : Camera :=
  { eye := ⟨-12, 10, 0⟩
    up := CAMERA_UP_VECTOR
    aspect := 4 / 3
    fovy := 45
    znear := 1 / 10
    zfar := 100
    look_sensitivity := (MOUSE_LOOK_SENSITIVITY, MOUSE_LOOK_SENSITIVITY)
    orientation := V3.zero
    current_speed_positive := V3.zero
    current_speed_negative := V3.zero
    movement_sensitivity :=
      ⟨MOVEMENT_SENSITIVITY, MOVEMENT_SENSITIVITY, MOVEMENT_SENSITIVITY⟩
    is_rotation_enabled := false }

/-- A concrete camera controller used by the witnesses. -/
def camera_controller_example : CameraController :=
  { camera := camera_example
    binding_buffer := 1
    bind_group := ⟨.CAMERA, 2⟩
    is_movement_enabled := false }

/-- A concrete light controller used by the witnesses. -/
def light_controller_example : LightController :=
  { light_buffer := 3, light_bind_group := ⟨.LIGHT, 4⟩ }

/-- Witness for C5 at concrete controllers and bind groups. -/
theorem claim5_witness :
    List.Forall
      (fun c => c.matches_layout MainRP.create_pipeline_layout)
      (mainRP_example.render camera_controller_example
        light_controller_example ⟨.GBUFFER, 5⟩
        ⟨.SHADOW_DEPTH_TEXTURE, 6⟩ ⟨.COMPUTE_PING_PONG, 7⟩ 800 600) :=
  claim5_render_slots_match_pipeline_layout mainRP_example
    camera_controller_example light_controller_example ⟨.GBUFFER, 5⟩
    ⟨.SHADOW_DEPTH_TEXTURE, 6⟩ ⟨.COMPUTE_PING_PONG, 7⟩
    800 600 rfl rfl rfl rfl rfl

/-! ## Claims C6-C8: application resize and frame orchestration -/

/-- A concrete interpretation of the floating-point primitives, used
only to instantiate witnesses. -/
def float_ops_example : FloatOps :=
  { fsqrt := fun _ => 0, fsin := fun _ => 0, fcos := fun _ => 0,
    fpi := 0 }

/-- A concrete well-formed application at output size 4x3. -/
def app_example : App :=
  { renderer := { size := ⟨4, 3⟩
                  resources := make_intermediate_resources ⟨4, 3⟩ }
    camera_controller := camera_controller_example
    light_controller := light_controller_example }

/-- C6: from any well-formed application state (positive output size,
intermediate resources built for that size, camera aspect equal to width
over height), resizing to any `new_size` and then back to the original
size restores the whole application — renderer size, every intermediate
texture and bind group, and the camera aspect ratio — exactly. -/
theorem claim6_resize_round_trip_is_identity
    (self : App) (new_size : PhysicalSize) (h : self.well_formed) :
    (self.resize new_size).resize self.renderer.size = self := by
  obtain ⟨⟨rsize, rres⟩, ⟨cam, bb, bg, ime⟩, lc⟩ := self
  obtain ⟨hw, hh, hres, hasp⟩ := h
  simp only [App.resize, Renderer.resize, CameraController.resize,
    Camera.resize]
  split_ifs with h1 h2 h3
  · rw [← hasp, ← hres]
  · exact absurd ⟨hw, hh, Ne.symm h1.2.2⟩ h2
  · exact absurd h3.2.2 (fun hne => hne rfl)
  · rfl

/-- Witness for C6 at the concrete application, resized to 8x6 and
back. -/
theorem claim6_witness :
    (app_example.resize ⟨8, 6⟩).resize app_example.renderer.size =
      app_example :=
  claim6_resize_round_trip_is_identity app_example ⟨8, 6⟩
    ⟨by decide, by decide, rfl, by norm_num [app_example,
      camera_controller_example, camera_example]⟩

/-- C7: within one frame, `App::request_redraw` queues the camera and
light uniform-buffer writes (via the controller updates) strictly before
the renderer's pass-recording-and-submit sequence reaches its submit,
for every application state, frame delta and float interpretation. -/
theorem claim7_uniform_writes_precede_submit
    (F : FloatOps) (self : App) (delta : ℚ) (i j : ℕ)
    (hwrite : (((App.request_redraw F self delta).2.get? i).map
      FrameEvent.is_uniform_write) = some true)
    (hsubmit : (App.request_redraw F self delta).2.get? j =
      some .submit) :
    i < j := by
  have htrace : (App.request_redraw F self delta).2 =
      [.writeCameraBuffer, .writeLightBuffer, .recordGeometryPass,
       .recordShadowPass, .recordLightingComputePass, .recordSkyboxPass,
       .recordPostProcessPass, .submit] := rfl
  rw [htrace] at hwrite hsubmit
  have hj : j = 7 := by
    rcases j with _|_|_|_|_|_|_|_|j <;>
      simp_all [List.get?, FrameEvent.is_uniform_write]
  have hi : i < 2 := by
    rcases i with _|_|_|_|_|_|_|_|i <;>
      simp_all [List.get?, FrameEvent.is_uniform_write]
  omega

/-- Witness for C7: in the concrete application's frame trace, the
camera write sits at index 0 and the submit at index 7. -/
theorem claim7_witness :
    (((App.request_redraw float_ops_example app_example 1).2.get? 0).map
      FrameEvent.is_uniform_write) = some true ∧
    (App.request_redraw float_ops_example app_example 1).2.get? 7 =
      some FrameEvent.submit ∧
    (0 : ℕ) < 7 :=
  ⟨rfl, rfl,
   claim7_uniform_writes_precede_submit float_ops_example app_example 1
     0 7 rfl rfl⟩

/-- C8: `App::resize` is silently skipped — renderer and camera
controller are left entirely unchanged — whenever the requested width is
0, the requested height is 0, or the requested size equals the
renderer's current size. -/
theorem claim8_degenerate_resize_is_skipped
    (self : App) (new_size : PhysicalSize)
    (h : new_size.width = 0 ∨ new_size.height = 0 ∨
      new_size = self.renderer.size) :
    self.resize new_size = self := by
  rw [App.resize, if_neg]
  rintro ⟨hw, hh, hne⟩
  rcases h with h | h | h
  · omega
  · omega
  · exact hne h

/-- Witness for C8 at a zero-width request. -/
theorem claim8_witness :
    (⟨0, 5⟩ : PhysicalSize).width = 0 ∧
    app_example.resize ⟨0, 5⟩ = app_example :=
  ⟨rfl, claim8_degenerate_resize_is_skipped app_example ⟨0, 5⟩
    (Or.inl rfl)⟩

/-! ## Claims C9-C10: the camera controller gate and the zero-speed
early return -/

/-- C9: while movement is disabled, `CameraController::process_device_events`
leaves the whole controller — camera, buffer, bind group, flag —
unchanged, for every device event; device events can affect the camera
only while movement is enabled. -/
theorem claim9_device_events_ignored_without_movement
    (F : FloatOps) (self : CameraController) (event : DeviceEvent)
    (h : self.is_movement_enabled = false) :
    self.process_device_events F event = self := by
  rw [CameraController.process_device_events, if_neg]
  simp [h]

/-- Witness for C9 at the concrete controller (movement disabled) and a
key-press event. -/
theorem claim9_witness :
    camera_controller_example.is_movement_enabled = false ∧
    camera_controller_example.process_device_events float_ops_example
      (.Key ⟨.Pressed, some .W⟩) = camera_controller_example :=
  ⟨rfl, claim9_device_events_ignored_without_movement float_ops_example
    camera_controller_example (.Key ⟨.Pressed, some .W⟩) rfl⟩

/-- C10: whenever the net movement speed (current_speed_positive minus
current_speed_negative) is the zero vector, `Camera::update` returns
early and leaves the camera — in particular its eye position —
unchanged, so the speed-vector normalization is never applied to a zero
vector; this holds for every frame delta and every interpretation of the
float primitives. -/
theorem claim10_update_zero_speed_early_return
    (F : FloatOps) (self : Camera) (delta : ℚ)
    (h : self.current_speed_positive - self.current_speed_negative =
      V3.zero) :
    self.update F delta = self := by
  rw [Camera.update]
  simp [h]

/-- Witness for C10 at the concrete camera, whose speed accumulators are
both zero. -/
theorem claim10_witness :
    camera_example.current_speed_positive -
      camera_example.current_speed_negative = V3.zero ∧
    camera_example.update float_ops_example 1 = camera_example :=
  ⟨by simp [camera_example, V3.sub_def, V3.zero],
   claim10_update_zero_speed_early_return float_ops_example
     camera_example 1
     (by simp [camera_example, V3.sub_def, V3.zero])⟩

end WgpuPlayground
